import Mathlib

/-!
# Avatar Forge — verification of the parametric mesh / export pipeline

Shallow embedding of the repository's core modules:

* `src/avatar-builder/src/state/avatarStore.ts` — the parameter store and the
  generation-progress simulator,
* `src/avatar-builder/src/components/avatar/AvatarScene.tsx` — procedural scene
  construction (hair layers) and the per-frame animator (hair sway, cloth wave),
* `src/avatar-builder/src/utils/exporters.ts` — the scene flattener
  (`collectMeshes`), the minimal ASCII (FBX) polygon-index construction, and the
  glTF export configuration and outcome dispatch.

JavaScript numbers are modelled as exact rationals (`ℚ`) where the code performs
plain field arithmetic, and as reals (`ℝ`) where the code uses `Math.sin`,
`Math.cos`, square roots or matrix inverses.  Decimal literals such as `0.85`
denote the exact rational/real value of the source literal.
-/

namespace AvatarForge

/-! ## Store data model (`avatarStore.ts`) -/

/-- `AvatarStatus` from `avatarStore.ts`: `"idle" | "processing" | "ready"`. -/
inductive AvatarStatus where
  | idle
  | processing
  | ready
deriving DecidableEq, Repr

/-- `HairConfig.style` enumeration: `"buzz" | "short" | "medium" | "long" | "braids"`. -/
inductive HairStyle where
  | buzz
  | short
  | medium
  | long
  | braids
deriving DecidableEq, Repr

/-- `ClothingConfig.outfit` enumeration: `"casual" | "athletic" | "formal" | "street"`. -/
inductive Outfit where
  | casual
  | athletic
  | formal
  | street
deriving DecidableEq, Repr

/-- `FacialConfig` from `avatarStore.ts`. -/
structure FacialConfig where
  eyeSpacing : ℚ
  eyeSize : ℚ
  noseWidth : ℚ
  noseLength : ℚ
  lipFullness : ℚ
  earSize : ℚ
deriving DecidableEq, Repr

/-- `HeadConfig` from `avatarStore.ts`. -/
structure HeadConfig where
  headHeight : ℚ
  headWidth : ℚ
  chinDefinition : ℚ
  jawWidth : ℚ
  neckThickness : ℚ
deriving DecidableEq, Repr

/-- `SkinConfig` from `avatarStore.ts`; `tone` is a hex color string. -/
structure SkinConfig where
  tone : String
  roughness : ℚ
  sheen : ℚ
  subsurface : ℚ
  freckles : ℚ
deriving DecidableEq, Repr

/-- `HairConfig` from `avatarStore.ts`. -/
structure HairConfig where
  style : HairStyle
  color : String
  secondaryColor : String
  length : ℚ
  curl : ℚ
  volume : ℚ
deriving DecidableEq, Repr

/-- `BodyConfig` from `avatarStore.ts`. -/
structure BodyConfig where
  height : ℚ
  weight : ℚ
  muscle : ℚ
  posture : ℚ
  shoulderWidth : ℚ
deriving DecidableEq, Repr

/-- `ClothingConfig` from `avatarStore.ts`. -/
structure ClothingConfig where
  outfit : Outfit
  primaryColor : String
  secondaryColor : String
  fabricSheen : ℚ
  layering : ℚ
deriving DecidableEq, Repr

/-- `AvatarParameters` from `avatarStore.ts`: the six sub-records. -/
structure AvatarParameters where
  facial : FacialConfig
  head : HeadConfig
  skin : SkinConfig
  hair : HairConfig
  body : BodyConfig
  clothing : ClothingConfig
deriving DecidableEq, Repr

/-- `UploadedImage` from `avatarStore.ts` (display-only collaborator data). -/
structure UploadedImage where
  id : String
  name : String
  src : String
  size : ℕ
deriving DecidableEq, Repr

/-- The data fields of the zustand store (`AvatarState` minus the actions). -/
structure AvatarStoreState where
  parameters : AvatarParameters
  status : AvatarStatus
  generationProgress : ℚ
  uploadedImages : List UploadedImage
  lastSavedISO : Option String
deriving DecidableEq, Repr

/-- `defaultParameters` from `avatarStore.ts`, field for field. -/
def defaultParameters : AvatarParameters where
  facial :=
    { eyeSpacing := 0.5
      eyeSize := 0.5
      noseWidth := 0.5
      noseLength := 0.5
      lipFullness := 0.5
      earSize := 0.5 }
  head :=
    { headHeight := 0.5
      headWidth := 0.5
      chinDefinition := 0.5
      jawWidth := 0.5
      neckThickness := 0.5 }
  skin :=
    { tone := "#c58c6d"
      roughness := 0.35
      sheen := 0.4
      subsurface := 0.6
      freckles := 0.15 }
  hair :=
    { style := .medium
      color := "#1f1a17"
      secondaryColor := "#2f2723"
      length := 0.6
      curl := 0.35
      volume := 0.55 }
  body :=
    { height := 0.6
      weight := 0.5
      muscle := 0.6
      posture := 0.5
      shoulderWidth := 0.55 }
  clothing :=
    { outfit := .athletic
      primaryColor := "#243447"
      secondaryColor := "#7e94ff"
      fabricSheen := 0.45
      layering := 0.4 }

/-- The store's initial state (`create` call in `avatarStore.ts`). -/
def initialState : AvatarStoreState where
  parameters := defaultParameters
  status := .idle
  generationProgress := 0
  uploadedImages := []
  lastSavedISO := none

/-- One single-field edit of the `AvatarParameters` record: `setParameter`'s
`(section, key, value)` argument triple, one constructor per declared
section/field pair with that field's value type. -/
inductive FieldUpdate where
  | facialEyeSpacing (v : ℚ)
  | facialEyeSize (v : ℚ)
  | facialNoseWidth (v : ℚ)
  | facialNoseLength (v : ℚ)
  | facialLipFullness (v : ℚ)
  | facialEarSize (v : ℚ)
  | headHeadHeight (v : ℚ)
  | headHeadWidth (v : ℚ)
  | headChinDefinition (v : ℚ)
  | headJawWidth (v : ℚ)
  | headNeckThickness (v : ℚ)
  | skinTone (v : String)
  | skinRoughness (v : ℚ)
  | skinSheen (v : ℚ)
  | skinSubsurface (v : ℚ)
  | skinFreckles (v : ℚ)
  | hairStyle (v : HairStyle)
  | hairColor (v : String)
  | hairSecondaryColor (v : String)
  | hairLength (v : ℚ)
  | hairCurl (v : ℚ)
  | hairVolume (v : ℚ)
  | bodyHeight (v : ℚ)
  | bodyWeight (v : ℚ)
  | bodyMuscle (v : ℚ)
  | bodyPosture (v : ℚ)
  | bodyShoulderWidth (v : ℚ)
  | clothingOutfit (v : Outfit)
  | clothingPrimaryColor (v : String)
  | clothingSecondaryColor (v : String)
  | clothingFabricSheen (v : ℚ)
  | clothingLayering (v : ℚ)
deriving DecidableEq, Repr

/-- The nested-spread update of `setParameter`: replace exactly one leaf field
of the addressed section, leaving every other field intact. -/
def applyUpdate (u : FieldUpdate) (p : AvatarParameters) : AvatarParameters :=
  match u with
  | .facialEyeSpacing v => { p with facial := { p.facial with eyeSpacing := v } }
  | .facialEyeSize v => { p with facial := { p.facial with eyeSize := v } }
  | .facialNoseWidth v => { p with facial := { p.facial with noseWidth := v } }
  | .facialNoseLength v => { p with facial := { p.facial with noseLength := v } }
  | .facialLipFullness v => { p with facial := { p.facial with lipFullness := v } }
  | .facialEarSize v => { p with facial := { p.facial with earSize := v } }
  | .headHeadHeight v => { p with head := { p.head with headHeight := v } }
  | .headHeadWidth v => { p with head := { p.head with headWidth := v } }
  | .headChinDefinition v => { p with head := { p.head with chinDefinition := v } }
  | .headJawWidth v => { p with head := { p.head with jawWidth := v } }
  | .headNeckThickness v => { p with head := { p.head with neckThickness := v } }
  | .skinTone v => { p with skin := { p.skin with tone := v } }
  | .skinRoughness v => { p with skin := { p.skin with roughness := v } }
  | .skinSheen v => { p with skin := { p.skin with sheen := v } }
  | .skinSubsurface v => { p with skin := { p.skin with subsurface := v } }
  | .skinFreckles v => { p with skin := { p.skin with freckles := v } }
  | .hairStyle v => { p with hair := { p.hair with style := v } }
  | .hairColor v => { p with hair := { p.hair with color := v } }
  | .hairSecondaryColor v => { p with hair := { p.hair with secondaryColor := v } }
  | .hairLength v => { p with hair := { p.hair with length := v } }
  | .hairCurl v => { p with hair := { p.hair with curl := v } }
  | .hairVolume v => { p with hair := { p.hair with volume := v } }
  | .bodyHeight v => { p with body := { p.body with height := v } }
  | .bodyWeight v => { p with body := { p.body with weight := v } }
  | .bodyMuscle v => { p with body := { p.body with muscle := v } }
  | .bodyPosture v => { p with body := { p.body with posture := v } }
  | .bodyShoulderWidth v => { p with body := { p.body with shoulderWidth := v } }
  | .clothingOutfit v => { p with clothing := { p.clothing with outfit := v } }
  | .clothingPrimaryColor v => { p with clothing := { p.clothing with primaryColor := v } }
  | .clothingSecondaryColor v => { p with clothing := { p.clothing with secondaryColor := v } }
  | .clothingFabricSheen v => { p with clothing := { p.clothing with fabricSheen := v } }
  | .clothingLayering v => { p with clothing := { p.clothing with layering := v } }

/-- `setParameters` action: `set({ parameters: params, status: "idle" })`.
The zustand `set` merges the partial record, so every other field is kept. -/
def setParameters (params : AvatarParameters) (s : AvatarStoreState) : AvatarStoreState :=
  { s with parameters := params, status := .idle }

/-- `setParameter` action: spread-update one leaf field and set
`status: state.status === "ready" ? "idle" : state.status`. -/
def setParameter (u : FieldUpdate) (s : AvatarStoreState) : AvatarStoreState :=
  { s with
    parameters := applyUpdate u s.parameters
    status := if s.status = .ready then .idle else s.status }

/-- `resetParameters` action: `set({ parameters: defaultParameters, status: "idle" })`. -/
def resetParameters (s : AvatarStoreState) : AvatarStoreState :=
  { s with parameters := defaultParameters, status := .idle }

/-- The `steps` array of `generateAvatar`: `[0, 18, 37, 58, 76, 92, 100]`. -/
def progressSteps : List ℚ := [0, 18, 37, 58, 76, 92, 100]

/-- The delay scheduled for step `index`:
`Math.min(totalDuration * (index / (steps.length - 1)), totalDuration)` with
`totalDuration = 3000` and `steps.length - 1 = 6`. -/
def stepDelay (index : ℕ) : ℚ :=
  min (3000 * ((index : ℚ) / 6)) 3000

/-- The body of one scheduled timeout of `generateAvatar`: set
`generationProgress` to the step value and promote `status` to `ready` once the
value reaches 100 (`value >= 100 ? "ready" : state.status`). -/
def timeoutStep (value : ℚ) (s : AvatarStoreState) : AvatarStoreState :=
  { s with
    generationProgress := value
    status := if value ≥ 100 then .ready else s.status }

/-- `generateAvatar` action: a no-op when already `processing`; otherwise set
`{ status: "processing", generationProgress: 0 }` and schedule one timeout per
step, pairing each step value with its delay.  The returned list is the
schedule of `(delay, value)` pairs in scheduling order (delays are
non-decreasing, so this is also firing order). -/
def generateAvatar (s : AvatarStoreState) : AvatarStoreState × List (ℚ × ℚ) :=
  if s.status = .processing then (s, [])
  else
    ({ s with status := .processing, generationProgress := 0 },
     progressSteps.enum.map (fun iv => (stepDelay iv.1, iv.2)))

/-- Fire a schedule of timeouts in order, returning every intermediate store
state (one per fired timeout). -/
def runTimeouts (s : AvatarStoreState) : List (ℚ × ℚ) → List AvatarStoreState
  | [] => []
  | ev :: rest =>
    let s1 := timeoutStep ev.2 s
    s1 :: runTimeouts s1 rest

/-! ## Procedural scene construction (`AvatarScene.tsx`), exact-rational part -/

/-- `lerp` from `AvatarScene.tsx`: `(value, min, max) => min + (max - min) * value`. -/
def lerp (value min max : ℚ) : ℚ :=
  min + (max - min) * value

/-- An RGB color with rational components (the numeric content of a parsed
`three.js` `Color`; hex-string parsing itself is library code outside this
repository, so scene constructors below take already-parsed colors). -/
abbrev Color := ℚ × ℚ × ℚ

/-- `three.js` `Color.lerp(color, alpha)`: component-wise
`c += (target - c) * alpha`. -/
def colorLerp (c target : Color) (alpha : ℚ) : Color :=
  (c.1 + (target.1 - c.1) * alpha,
   c.2.1 + (target.2.1 - c.2.1) * alpha,
   c.2.2 + (target.2.2 - c.2.2) * alpha)

/-- One element of the `hairLayers` memo: `{ radius, height, offset }`. -/
structure HairLayer where
  radius : ℚ
  height : ℚ
  offset : ℚ
deriving DecidableEq, Repr

/-- The `hairLayers` memo from `AvatarScene.tsx`: six layers, layer `index`
having `t = index / layers`, `radius = lerp(volume, 0.4, 0.85) * (1 - t*0.15)`,
`height = lerp(length, 0.4, 1.4) * (style === "buzz" ? 0.3 : 1 - t*0.1)` and
`offset = t`. -/
def hairLayers (hair : HairConfig) : List HairLayer :=
  (List.range 6).map fun (index : ℕ) =>
    let t : ℚ := (index : ℚ) / 6
    { radius := lerp hair.volume 0.4 0.85 * (1 - t * 0.15)
      height := lerp hair.length 0.4 1.4 * (if hair.style = .buzz then 0.3 else 1 - t * 0.1)
      offset := t }

/-- One hair mesh as rendered inside the hair group of `AvatarModel`:
its local position, scale, sphere-geometry radius and material color. -/
structure HairPrim where
  position : ℚ × ℚ × ℚ
  scale : ℚ × ℚ × ℚ
  sphereRadius : ℚ
  color : Color
deriving DecidableEq, Repr

/-- The hair meshes rendered by `AvatarModel` (JSX lines 249–276): when
`parameters.hair.style !== "buzz"`, one mesh per `hairLayers` entry at position
`[0, (offset - 0.5) * hair.length, 0]`, scale `[radius, height, radius]`,
sphere radius `0.4`, color `hairHue.clone().lerp(secondaryHairColor,
layer.offset * 0.6)`; otherwise a single mesh with scale `[0.95, 0.85, 0.95]`,
sphere radius `0.42` and color `hairHue`.  `hairHue` and `secondaryHairColor`
are the parsed `hair.color` / `hair.secondaryColor`. -/
def hairPrimitives (p : AvatarParameters) (hairHue secondaryHairColor : Color) : List HairPrim :=
  if p.hair.style ≠ .buzz then
    (hairLayers p.hair).map fun layer =>
      { position := (0, (layer.offset - 0.5) * p.hair.length, 0)
        scale := (layer.radius, layer.height, layer.radius)
        sphereRadius := 0.4
        color := colorLerp hairHue secondaryHairColor (layer.offset * 0.6) }
  else
    [{ position := (0, 0, 0)
       scale := (0.95, 0.85, 0.95)
       sphereRadius := 0.42
       color := hairHue }]

/-! ## Minimal ASCII (FBX) encoder (`exportAvatarAsFBX` in `exporters.ts`) -/

/-- The `PolygonVertexIndex` array built by `exportAvatarAsFBX`:
`polygonCount = Math.floor(vertexCount / 3)` and, for each polygon `i`,
`base = i * 3` with pushes `base, base + 1, -(base + 2 + 1)`. -/
def polygonIndices (vertexCount : ℕ) : List ℤ :=
  (List.range (vertexCount / 3)).flatMap fun i =>
    [((i * 3 : ℕ) : ℤ), (i * 3 : ℕ) + 1, -(((i * 3 : ℕ) : ℤ) + 2 + 1)]

/-! ## glTF export (`exportAvatarAsGLTF` in `exporters.ts`) -/

/-- The options record passed to `GLTFExporter.parse`:
`{ onlyVisible: true, embedImages: true, forceIndices: true }`. -/
structure GLTFExportOptions where
  onlyVisible : Bool
  embedImages : Bool
  forceIndices : Bool
deriving DecidableEq, Repr

/-- The concrete options value from `exportAvatarAsGLTF`. -/
def gltfExportOptions : GLTFExportOptions :=
  { onlyVisible := true, embedImages := true, forceIndices := true }

/-- Modelled from the spec and the external serializer's documented contract
(the `GLTFExporter` library is not part of this repository): the exporter's
`forceIndices` option *generates index buffers* for non-indexed geometry when
set, so a configuration forces fully-expanded (non-indexed) triangle lists
only by leaving `forceIndices` unset.  This definition follows the spec's
words "force fully-expanded (non-indexed) triangle lists" for comparison with
the configuration actually found in the source. -/
def specForcesNonIndexed (o : GLTFExportOptions) : Prop :=
  o.forceIndices = false

/-- The payload of an export blob: binary bytes (`ArrayBuffer` result) or
serialized text (`JSON.stringify` of a JSON result). -/
inductive GLTFPayload where
  | bin (bytes : List ℕ)
  | text (serialized : String)
deriving DecidableEq, Repr

/-- A produced `Blob`: payload plus MIME type. -/
structure GLTFBlob where
  payload : GLTFPayload
  mime : String
deriving DecidableEq, Repr

/-- What the external serializer hands to `exportAvatarAsGLTF`'s callbacks: a
success result (an `ArrayBuffer`, or a JSON object carried here by its
serialized text) or an error (an `ErrorEvent` or a plain `Error`, each with a
message). -/
inductive GLTFParseSignal where
  | arrayBuffer (bytes : List ℕ)
  | jsonObject (serialized : String)
  | errorEvent (message : String)
  | plainError (message : String)
deriving DecidableEq, Repr

/-- Resolution or rejection of the promise returned by `exportAvatarAsGLTF`. -/
inductive GLTFOutcome where
  | resolved (blob : GLTFBlob)
  | rejected (message : String)
deriving DecidableEq, Repr

/-- The callback dispatch of `exportAvatarAsGLTF`: an `ArrayBuffer` result
resolves as a `model/gltf-binary` blob, any other result is stringified and
resolves as a `model/gltf+json` blob, and the error callback rejects with the
error's message (unwrapped from an `ErrorEvent` when necessary). -/
def gltfOutcome : GLTFParseSignal → GLTFOutcome
  | .arrayBuffer bytes => .resolved { payload := .bin bytes, mime := "model/gltf-binary" }
  | .jsonObject serialized => .resolved { payload := .text serialized, mime := "model/gltf+json" }
  | .errorEvent message => .rejected message
  | .plainError message => .rejected message

/-! ## Per-frame animator (`useFrame` body of `AvatarModel`), real-valued -/

noncomputable section

/-- A 3-component real vector (positions, normals, Euler rotations). -/
abbrev Vec3R := ℝ × ℝ × ℝ

/-- `windAmplitude = 0.15 + parameters.clothing.layering * 0.2`. -/
def windAmplitude (p : AvatarParameters) : ℝ :=
  0.15 + (p.clothing.layering : ℝ) * 0.2

/-- `hairFlex = 0.08 + parameters.hair.length * 0.18`. -/
def hairFlex (p : AvatarParameters) : ℝ :=
  0.08 + (p.hair.length : ℝ) * 0.18

/-- `curliness = 0.4 + parameters.hair.curl * 0.9`. -/
def curliness (p : AvatarParameters) : ℝ :=
  0.4 + (p.hair.curl : ℝ) * 0.9

/-- Hair group `rotation.z = Math.sin(elapsed * (1.4 + curliness)) * hairFlex`. -/
def hairRotationZ (p : AvatarParameters) (elapsed : ℝ) : ℝ :=
  Real.sin (elapsed * (1.4 + curliness p)) * hairFlex p

/-- Hair group `rotation.x = Math.cos(elapsed * 1.2) * (hairFlex * 0.5)`. -/
def hairRotationX (p : AvatarParameters) (elapsed : ℝ) : ℝ :=
  Real.cos (elapsed * 1.2) * (hairFlex p * 0.5)

/-- One frame's effect on the hair group rotation `(x, y, z)`: the `x` and `z`
components are *assigned* from elapsed time and parameters; `y` is untouched. -/
def hairFrame (p : AvatarParameters) (elapsed : ℝ) (rot : Vec3R) : Vec3R :=
  (hairRotationX p elapsed, rot.2.1, hairRotationZ p elapsed)

/-- The cloth `wave` term:
`Math.sin(baseY * 4 + elapsed * 2.1) * 0.02 + Math.cos(baseX * 4 + elapsed * 1.6) * 0.02`. -/
def clothWave (baseX baseY elapsed : ℝ) : ℝ :=
  Real.sin (baseY * 4 + elapsed * 2.1) * 0.02 + Real.cos (baseX * 4 + elapsed * 1.6) * 0.02

/-- The cloth `dynamicOffset` term:
`Math.sin(elapsed * 3 + baseX * 2.3) * windAmplitude * (0.3 + parameters.clothing.fabricSheen)`. -/
def clothDynamicOffset (p : AvatarParameters) (baseX elapsed : ℝ) : ℝ :=
  Real.sin (elapsed * 3 + baseX * 2.3) * windAmplitude p * (0.3 + (p.clothing.fabricSheen : ℝ))

/-- One frame's effect on the cloth position buffer, per vertex: keep the live
`x`/`y` (the loop writes only `array[i + 2]`) and set
`z = basePositions[i + 2] + wave + dynamicOffset`, where `wave` and
`dynamicOffset` read only the *rest* coordinates `basePositions[i]`,
`basePositions[i + 1]`.  `basePositions` is a `Float32Array.from` copy of the
live buffer taken at construction, so the two lists have equal length and are
traversed in lockstep. -/
def clothFrame (p : AvatarParameters) (elapsed : ℝ) :
    List Vec3R → List Vec3R → List Vec3R
  | b :: bs, l :: ls =>
    (l.1, l.2.1, b.2.2 + clothWave b.1 b.2.1 elapsed + clothDynamicOffset p b.1 elapsed)
      :: clothFrame p elapsed bs ls
  | _, _ => []

/-! ## Scene flattener (`collectMeshes` in `exporters.ts`), real-valued -/

/-- A 4×4 transform matrix (`three.js` `Matrix4`, row-major indexing here). -/
abbrev Mat4 := Matrix (Fin 4) (Fin 4) ℝ

/-- A 3×3 matrix (`three.js` `Matrix3`). -/
abbrev Mat3 := Matrix (Fin 3) (Fin 3) ℝ

/-- `Vector3.applyMatrix4`: treat `v` as `(x, y, z, 1)`, multiply, divide by
the resulting `w` component (`three.js` multiplies by `1 / w`). -/
def applyMatrix4 (m : Mat4) (v : Vec3R) : Vec3R :=
  let x := v.1
  let y := v.2.1
  let z := v.2.2
  let w := 1 / (m 3 0 * x + m 3 1 * y + m 3 2 * z + m 3 3)
  ((m 0 0 * x + m 0 1 * y + m 0 2 * z + m 0 3) * w,
   (m 1 0 * x + m 1 1 * y + m 1 2 * z + m 1 3) * w,
   (m 2 0 * x + m 2 1 * y + m 2 2 * z + m 2 3) * w)

/-- `Vector3.applyMatrix3`. -/
def applyMatrix3 (m : Mat3) (v : Vec3R) : Vec3R :=
  (m 0 0 * v.1 + m 0 1 * v.2.1 + m 0 2 * v.2.2,
   m 1 0 * v.1 + m 1 1 * v.2.1 + m 1 2 * v.2.2,
   m 2 0 * v.1 + m 2 1 * v.2.1 + m 2 2 * v.2.2)

/-- The upper-left 3×3 block of a 4×4 matrix (`Matrix3.setFromMatrix4`). -/
def upperLeft3 (m : Mat4) : Mat3 :=
  m.submatrix Fin.castSucc Fin.castSucc

/-- `Matrix3.getNormalMatrix(m)`: invert the upper-left 3×3 block, then
transpose (the inverse-transpose normal matrix). -/
def normalMatrix (m : Mat4) : Mat3 :=
  ((upperLeft3 m)⁻¹).transpose

/-- `Vector3.length()`. -/
def vlength (v : Vec3R) : ℝ :=
  Real.sqrt (v.1 ^ 2 + v.2.1 ^ 2 + v.2.2 ^ 2)

/-- `Vector3.normalize()`: `divideScalar(length() || 1)`. -/
def vnormalize (v : Vec3R) : Vec3R :=
  let l := vlength v
  let d := if l = 0 then 1 else l
  (v.1 / d, v.2.1 / d, v.2.2 / d)

/-- `Number.parseFloat(value.toFixed(6))`: round to six decimal digits. -/
def round6 (x : ℝ) : ℝ :=
  ((round (x * 1000000) : ℤ) : ℝ) / 1000000

/-- A `BufferGeometry` as read by `collectMeshes`: a position attribute, an
optional normal attribute, and an optional index buffer. -/
structure BufferGeometryR where
  positions : List Vec3R
  normals : Option (List Vec3R)
  index : Option (List ℕ)

/-- `BufferGeometry.toNonIndexed()`: an unindexed geometry is returned as is;
otherwise every attribute is expanded by the index buffer. -/
def toNonIndexed (g : BufferGeometryR) : BufferGeometryR :=
  match g.index with
  | none => g
  | some idx =>
    { positions := idx.map fun i => g.positions.getD i (0, 0, 0)
      normals := g.normals.map fun ns => idx.map fun i => ns.getD i (0, 0, 0)
      index := none }

mutual
/-- An `Object3D` in the scene graph: a local transform, geometry when the node
is a mesh carrying one (`isRenderableMesh` plus the geometry null-check of
`collectMeshes` both reduce to `geometry = none` contributing nothing), and an
ordered children forest. -/
inductive SceneNode where
  | mk (localMatrix : Mat4) (geometry : Option BufferGeometryR) (children : SceneForest)
/-- The ordered `children` array of an `Object3D`. -/
inductive SceneForest where
  | nil
  | cons (head : SceneNode) (tail : SceneForest)
end

/-- The contribution of one renderable mesh to the flattened streams: de-index,
then for every vertex `i` push the three rounded world-space position
coordinates, and push either the three rounded coordinates of the transformed,
renormalized normal (when a normal attribute exists) or the literal
`0, 1, 0`. -/
def meshTriples (world : Mat4) (g : BufferGeometryR) : List ℝ × List ℝ :=
  let tg := toNonIndexed g
  let nm := normalMatrix world
  (tg.positions.flatMap fun pos =>
     let q := applyMatrix4 world pos
     [round6 q.1, round6 q.2.1, round6 q.2.2],
   (List.range tg.positions.length).flatMap fun i =>
     match tg.normals with
     | some ns =>
       let n := vnormalize (applyMatrix3 nm (ns.getD i (0, 0, 0)))
       [round6 n.1, round6 n.2.1, round6 n.2.2]
     | none => [0, 1, 0])

mutual
/-- `root.traverse` in pre-order with accumulated world matrices: the node's
own mesh contribution (empty for non-meshes), then the children's, appended in
traversal order. -/
def collectNode (parentWorld : Mat4) : SceneNode → List ℝ × List ℝ
  | .mk localMatrix geometry children =>
    let world := parentWorld * localMatrix
    let own := match geometry with
      | none => (([] : List ℝ), ([] : List ℝ))
      | some g => meshTriples world g
    let rest := collectForest world children
    (own.1 ++ rest.1, own.2 ++ rest.2)
/-- Collect over a children forest in order. -/
def collectForest (parentWorld : Mat4) : SceneForest → List ℝ × List ℝ
  | .nil => ([], [])
  | .cons head tail =>
    let a := collectNode parentWorld head
    let b := collectForest parentWorld tail
    (a.1 ++ b.1, a.2 ++ b.2)
end

/-- `collectMeshes(root)`: flatten the whole graph starting from the identity
world transform (the root has no parent; `updateWorldMatrix` composes local
matrices from the root down). -/
def collectMeshes (root : SceneNode) : List ℝ × List ℝ :=
  collectNode 1 root

end

/-! ## Helper lemmas -/

/-- A `flatMap` whose every branch has length 3 has length `3 * |l|`. -/
theorem length_flatMap_const3 {α β : Type} (l : List α) (f : α → List β)
    (h : ∀ a ∈ l, (f a).length = 3) :
    (l.flatMap f).length = 3 * l.length := by
  induction l with
  | nil => simp
  | cons a t ih =>
    have ha : (f a).length = 3 := h a (by simp)
    have ht := ih fun x hx => h x (by simp [hx])
    simp only [List.flatMap_cons, List.length_append, ha, ht, List.length_cons]
    omega

/-- Length of the flattened polygon-index triples over an index range. -/
theorem flatMap_range_length {β : Type} (f : ℕ → List β) (h3 : ∀ j, (f j).length = 3)
    (k : ℕ) : ((List.range k).flatMap f).length = 3 * k := by
  rw [length_flatMap_const3 _ _ fun a _ => h3 a, List.length_range]

/-- Element access into a `flatMap` of constant-length-3 blocks over
`List.range`: position `3 * i + r` lands at offset `r` of block `i`. -/
theorem flatMap_range_getElem {β : Type} (f : ℕ → List β) (h3 : ∀ j, (f j).length = 3) :
    ∀ (k i r : ℕ), i < k → r < 3 →
      ((List.range k).flatMap f)[3 * i + r]? = (f i)[r]? := by
  intro k
  induction k with
  | zero => omega
  | succ k ih =>
    intro i r hik hr
    rw [List.range_succ, List.flatMap_append, List.getElem?_append]
    rcases Nat.lt_or_ge i k with hik2 | hik2
    · rw [if_pos (by rw [flatMap_range_length f h3]; omega)]
      exact ih i r hik2 hr
    · have hieq : i = k := by omega
      subst hieq
      rw [if_neg (by rw [flatMap_range_length f h3]; omega)]
      rw [flatMap_range_length f h3]
      have : 3 * i + r - 3 * i = r := by omega
      simp [this]

/-! ## Claims -/

/-- C8: `lerp` fixes its endpoints exactly (`lerp 0 lo hi = lo`,
`lerp 1 lo hi = hi`) and, whenever `lo ≤ hi`, is monotone non-decreasing in
`p` on `[0, 1]`. -/
theorem lerp_endpoints_monotone (lo hi : ℚ) (h : lo ≤ hi) :
    lerp 0 lo hi = lo ∧ lerp 1 lo hi = hi ∧
    ∀ p q : ℚ, 0 ≤ p → p ≤ q → q ≤ 1 → lerp p lo hi ≤ lerp q lo hi := by
  refine ⟨by unfold lerp; ring, by unfold lerp; ring, ?_⟩
  intro p q _ hpq _
  unfold lerp
  nlinarith

/-- Witness for C8 at `(lo, hi) = (0, 2)`, `p = 1/4`, `q = 1/2`. -/
theorem lerp_endpoints_monotone_witness :
    (0 : ℚ) ≤ 2 ∧ lerp 0 0 2 = 0 ∧ lerp 1 0 2 = 2 ∧ lerp (1/4) 0 2 ≤ lerp (1/2) 0 2 := by
  have h := lerp_endpoints_monotone 0 2 (by norm_num)
  exact ⟨by norm_num, h.1, h.2.1,
    h.2.2 (1/4) (1/2) (by norm_num) (by norm_num) (by norm_num)⟩

/-- C6: a single-field `setParameter` edit maps `ready` to `idle` and leaves
any other status (in particular `processing`) unchanged, never touching
`generationProgress`. -/
theorem setParameter_status_progress (u : FieldUpdate) (s : AvatarStoreState) :
    (setParameter u s).status = (if s.status = .ready then .idle else s.status) ∧
    (setParameter u s).generationProgress = s.generationProgress :=
  ⟨rfl, rfl⟩

/-- C10: wholesale replacement (`setParameters` / `resetParameters`) always
sets `status` to `idle` — regardless of the prior status, including
`processing` — while leaving `generationProgress` unchanged; by contrast a
single-field `setParameter` edit keeps a `processing` status. -/
theorem replaceParameters_always_idle (params : AvatarParameters) (u : FieldUpdate)
    (s : AvatarStoreState) :
    (setParameters params s).status = .idle ∧
    (setParameters params s).generationProgress = s.generationProgress ∧
    (setParameters params s).parameters = params ∧
    (resetParameters s).status = .idle ∧
    (resetParameters s).generationProgress = s.generationProgress ∧
    (resetParameters s).parameters = defaultParameters ∧
    (setParameter u { s with status := .processing }).status = .processing :=
  ⟨rfl, rfl, rfl, rfl, rfl, rfl, rfl⟩

/-- C4: the scene contains exactly one hair primitive for style `buzz` (a
single sphere scaled down to `[0.95, 0.85, 0.95]`) and exactly 6 layered hair
primitives for every other style, for all parameter values and hair colors. -/
theorem hairPrimitives_count (p : AvatarParameters) (hue sec : Color) :
    (hairPrimitives p hue sec).length = (if p.hair.style = .buzz then 1 else 6) ∧
    (p.hair.style = .buzz →
      hairPrimitives p hue sec =
        [{ position := (0, 0, 0), scale := (0.95, 0.85, 0.95),
           sphereRadius := 0.42, color := hue }]) := by
  constructor
  · by_cases hb : p.hair.style = .buzz
    · simp [hairPrimitives, hb]
    · rw [hairPrimitives, if_pos hb, if_neg hb, List.length_map, hairLayers,
        List.length_map, List.length_range]
  · intro h
    simp [hairPrimitives, h]

/-- Witness for C4 at the default parameters with style switched to `buzz`. -/
theorem hairPrimitives_count_witness :
    hairPrimitives
        { defaultParameters with hair := { defaultParameters.hair with style := .buzz } }
        (0, 0, 0) (1, 1, 1) =
      [{ position := (0, 0, 0), scale := (0.95, 0.85, 0.95),
         sphereRadius := 0.42, color := (0, 0, 0) }] :=
  (hairPrimitives_count _ _ _).2 rfl

/-- C3 (amended): the glTF export invokes the external serializer configured
with `onlyVisible`, `embedImages` and `forceIndices` all `true` (so geometry is
forced to *indexed* triangle lists), and every invocation either resolves with
a `model/gltf-binary` binary blob, resolves with a `model/gltf+json` textual
blob, or rejects with the error's message. -/
theorem gltfExport_config_and_outcome :
    gltfExportOptions.onlyVisible = true ∧
    gltfExportOptions.embedImages = true ∧
    gltfExportOptions.forceIndices = true ∧
    ∀ sig : GLTFParseSignal,
      (∃ bytes, gltfOutcome sig = .resolved { payload := .bin bytes, mime := "model/gltf-binary" }) ∨
      (∃ s, gltfOutcome sig = .resolved { payload := .text s, mime := "model/gltf+json" }) ∨
      (∃ m, gltfOutcome sig = .rejected m) := by
  refine ⟨rfl, rfl, rfl, ?_⟩
  intro sig
  cases sig with
  | arrayBuffer bytes => exact Or.inl ⟨bytes, rfl⟩
  | jsonObject s => exact Or.inr (Or.inl ⟨s, rfl⟩)
  | errorEvent m => exact Or.inr (Or.inr ⟨m, rfl⟩)
  | plainError m => exact Or.inr (Or.inr ⟨m, rfl⟩)

/-- C3 counterexample: the configuration in the source does *not* force
non-indexed triangle lists — it sets `forceIndices: true`, which makes the
serializer generate index buffers. -/
theorem gltfExport_not_nonIndexed : ¬ specForcesNonIndexed gltfExportOptions := by
  simp [specForcesNonIndexed, gltfExportOptions]

/-- C1: the FBX encoder's polygon-index array has exactly `⌊vertexCount/3⌋`
index triples, the `i`-th triple being `(3i, 3i+1, −(3i+2+1))`; for a stream
of exactly 3 vertices the array is exactly `[0, 1, -3]`. -/
theorem fbx_polygonIndices_triples (n : ℕ) :
    (polygonIndices n).length = 3 * (n / 3) ∧
    (∀ i, i < n / 3 →
      (polygonIndices n)[3 * i]? = some (3 * (i : ℤ)) ∧
      (polygonIndices n)[3 * i + 1]? = some (3 * (i : ℤ) + 1) ∧
      (polygonIndices n)[3 * i + 2]? = some (-(3 * (i : ℤ) + 2 + 1))) ∧
    polygonIndices 3 = [0, 1, -3] := by
  have h3 : ∀ j, ([((j * 3 : ℕ) : ℤ), (j * 3 : ℕ) + 1, -(((j * 3 : ℕ) : ℤ) + 2 + 1)]).length = 3 :=
    fun j => rfl
  refine ⟨?_, ?_, by decide⟩
  · exact flatMap_range_length _ h3 (n / 3)
  · intro i hi
    have h0 := flatMap_range_getElem _ h3 (n / 3) i 0 hi (by omega)
    have h1 := flatMap_range_getElem _ h3 (n / 3) i 1 hi (by omega)
    have h2 := flatMap_range_getElem _ h3 (n / 3) i 2 hi (by omega)
    rw [Nat.add_zero] at h0
    refine ⟨?_, ?_, ?_⟩
    · rw [polygonIndices, h0]
      simp
      ring
    · rw [polygonIndices, h1]
      simp
      ring
    · rw [polygonIndices, h2]
      simp
      ring

/-- Witness for C1 at `vertexCount = 3`, polygon `i = 0`. -/
theorem fbx_polygonIndices_triples_witness :
    0 < 3 / 3 ∧ (polygonIndices 3)[3 * 0 + 2]? = some (-(3 * (0 : ℤ) + 2 + 1)) :=
  ⟨by decide, ((fbx_polygonIndices_triples 3).2.1 0 (by decide)).2.2⟩

/-- C2 counterexample: with pure-black primary and pure-white secondary hair
colors and the default (non-buzz) parameters, the layer colors are the blend
factors themselves; the top (6th) layer comes out at exactly `(1/2, 1/2, 1/2)`
— a 50% blend, because the top layer's offset is `5/6` and `5/6 * 0.6 = 1/2` —
which falls short of the claimed ≈0.6 blend factor by a full `1/10`. -/
theorem hairTopLayer_blend_half :
    (hairPrimitives defaultParameters (0, 0, 0) (1, 1, 1)).map (fun prim => prim.color) =
      [(0, 0, 0), (1/10, 1/10, 1/10), (1/5, 1/5, 1/5), (3/10, 3/10, 3/10),
       (2/5, 2/5, 2/5), (1/2, 1/2, 1/2)] ∧
    (0.6 : ℚ) - 1/2 = 1/10 := by
  have hr6 : List.range 6 = [0, 1, 2, 3, 4, 5] := by decide
  constructor
  · rw [hairPrimitives, if_pos (by decide)]
    simp only [hairLayers, hr6, List.map_map, List.map_cons, List.map_nil, Function.comp_def]
    norm_num [defaultParameters, colorLerp]
  · norm_num

/-- C2 (amended): for every non-buzz style, each of the 6 hair-layer meshes
has material color `colorLerp(primary, secondary, offset * 0.6)`; the blend
factor is strictly increasing along the layers' offsets `0, 1/6, …, 5/6`;
layer 0 is the pure primary color; and the top layer's blend factor is exactly
`5/6 * 0.6 = 1/2` (50% secondary). -/
theorem hairLayerColors_blend (p : AvatarParameters) (hue sec : Color)
    (h : p.hair.style ≠ .buzz) :
    (hairPrimitives p hue sec).map (fun prim => prim.color) =
      ((hairLayers p.hair).map (fun layer => layer.offset)).map
        (fun t => colorLerp hue sec (t * 0.6)) ∧
    (hairLayers p.hair).map (fun layer => layer.offset) = [0, 1/6, 2/6, 3/6, 4/6, 5/6] ∧
    List.Chain' (· < ·)
      (((hairLayers p.hair).map (fun layer => layer.offset)).map (fun t => t * 0.6)) ∧
    colorLerp hue sec (0 * 0.6) = hue ∧
    (5 : ℚ) / 6 * 0.6 = 1 / 2 := by
  have hr6 : List.range 6 = [0, 1, 2, 3, 4, 5] := by decide
  have hoff : (hairLayers p.hair).map (fun layer => layer.offset) =
      [0, 1/6, 2/6, 3/6, 4/6, 5/6] := by
    simp only [hairLayers, hr6, List.map_map, List.map_cons, List.map_nil, Function.comp_def]
    norm_num
  refine ⟨?_, hoff, ?_, ?_, by norm_num⟩
  · simp [hairPrimitives, h, hairLayers, List.map_map]
  · rw [hoff]
    norm_num [List.chain'_cons]
  · unfold colorLerp
    simp

/-- Witness for C2 at the default parameters (style `medium`), black primary
and white secondary. -/
theorem hairLayerColors_blend_witness :
    (hairLayers defaultParameters.hair).map (fun layer => layer.offset) =
      [0, 1/6, 2/6, 3/6, 4/6, 5/6] :=
  (hairLayerColors_blend defaultParameters (0, 0, 0) (1, 1, 1) (by decide)).2.1

/-- C5: invoking `generateAvatar` while `processing` is a strict no-op (state
unchanged, no timeouts scheduled); invoking it from `idle` schedules exactly
the monotone step values `0, 18, 37, 58, 76, 92, 100` at the proportional
delays `0, 500, …, 3000` ms over the 3000 ms total, sets the state to
`processing` with progress 0, and firing the schedule keeps the status at
`processing` until exactly the final step, where progress 100 flips it to
`ready`. -/
theorem generateAvatar_simulation (s : AvatarStoreState) :
    (s.status = .processing → generateAvatar s = (s, [])) ∧
    (s.status = .idle →
      (generateAvatar s).2.map Prod.fst = [0, 500, 1000, 1500, 2000, 2500, 3000] ∧
      (generateAvatar s).2.map Prod.snd = [0, 18, 37, 58, 76, 92, 100] ∧
      List.Chain' (· < ·) ((generateAvatar s).2.map Prod.snd) ∧
      (generateAvatar s).1.status = .processing ∧
      (generateAvatar s).1.generationProgress = 0 ∧
      (runTimeouts (generateAvatar s).1 (generateAvatar s).2).map
          (fun st => (st.status, st.generationProgress)) =
        [(.processing, 0), (.processing, 18), (.processing, 37), (.processing, 58),
         (.processing, 76), (.processing, 92), (.ready, 100)]) := by
  constructor
  · intro h
    simp [generateAvatar, h]
  · intro h
    have hne : ¬ s.status = .processing := by simp [h]
    have hgen : generateAvatar s =
        ({ s with status := .processing, generationProgress := 0 },
          progressSteps.enum.map (fun iv => (stepDelay iv.1, iv.2))) := by
      rw [generateAvatar, if_neg hne]
    rw [hgen]
    refine ⟨?_, ?_, ?_, rfl, rfl, ?_⟩
    · norm_num [progressSteps, stepDelay, List.enum, List.enumFrom, min_def]
    · norm_num [progressSteps, stepDelay, List.enum, List.enumFrom]
    · norm_num [progressSteps, stepDelay, List.enum, List.enumFrom, List.chain'_cons]
    · simp only [progressSteps, List.enum, List.enumFrom, List.map, runTimeouts, timeoutStep,
        stepDelay]
      norm_num

/-- Witness for C5: a no-op from a concrete `processing` state, and the step
values of the schedule started from the store's initial (idle) state. -/
theorem generateAvatar_simulation_witness :
    generateAvatar { initialState with status := .processing } =
      ({ initialState with status := .processing }, []) ∧
    (generateAvatar initialState).2.map Prod.snd = [0, 18, 37, 58, 76, 92, 100] :=
  ⟨(generateAvatar_simulation _).1 rfl, ((generateAvatar_simulation _).2 rfl).2.1⟩

/-- Both flattened streams of one mesh have length `3 ×` its de-indexed vertex
count. -/
theorem meshTriples_length (w : Mat4) (g : BufferGeometryR) :
    (meshTriples w g).1.length = 3 * (toNonIndexed g).positions.length ∧
    (meshTriples w g).2.length = 3 * (toNonIndexed g).positions.length := by
  constructor
  · exact length_flatMap_const3 _ _ fun a _ => rfl
  · cases hn : (toNonIndexed g).normals with
    | none =>
      simp only [meshTriples, hn]
      refine (length_flatMap_const3 _ _ fun a _ => ?_).trans (by rw [List.length_range])
      rfl
    | some ns =>
      simp only [meshTriples, hn]
      refine (length_flatMap_const3 _ _ fun a _ => ?_).trans (by rw [List.length_range])
      rfl

mutual
/-- The two streams collected below any node have equal lengths, divisible
by 3. -/
theorem collectNode_parallel : ∀ (w : Mat4) (n : SceneNode),
    (collectNode w n).1.length = (collectNode w n).2.length ∧
    3 ∣ (collectNode w n).1.length
  | w, .mk m g c => by
    have hc := collectForest_parallel (w * m) c
    cases g with
    | none =>
      simp only [collectNode]
      simpa using hc
    | some geo =>
      have hm := meshTriples_length (w * m) geo
      simp only [collectNode, List.length_append]
      exact ⟨by rw [hm.1, hm.2, hc.1], by rw [hm.1]; exact dvd_add ⟨_, rfl⟩ hc.2⟩
/-- The two streams collected over a children forest have equal lengths,
divisible by 3. -/
theorem collectForest_parallel : ∀ (w : Mat4) (f : SceneForest),
    (collectForest w f).1.length = (collectForest w f).2.length ∧
    3 ∣ (collectForest w f).1.length
  | _, .nil => by simp [collectForest]
  | w, .cons hd tl => by
    have h1 := collectNode_parallel w hd
    have h2 := collectForest_parallel w tl
    simp only [collectForest, List.length_append]
    exact ⟨by rw [h1.1, h2.1], dvd_add h1.2 h2.2⟩
end

/-- C7: for every scene-graph root, `collectMeshes` emits a vertex coordinate
stream and a normal coordinate stream of equal length, and that length is a
multiple of 3 (parallel coordinate triples, `vertex[i] ↔ normal[i]`). -/
theorem collectMeshes_parallel_triples (root : SceneNode) :
    (collectMeshes root).1.length = (collectMeshes root).2.length ∧
    3 ∣ (collectMeshes root).1.length :=
  collectNode_parallel 1 root

/-- The cloth update reads the live buffer only through each vertex's `x` and
`y` components (which it never writes); the input `z` is irrelevant. -/
theorem clothFrame_xy_only (p : AvatarParameters) (t : ℝ) :
    ∀ base live1 live2 : List Vec3R,
      live1.map (fun v => (v.1, v.2.1)) = live2.map (fun v => (v.1, v.2.1)) →
      clothFrame p t base live1 = clothFrame p t base live2 := by
  intro base
  induction base with
  | nil =>
    intro l1 l2 _
    cases l1 <;> cases l2 <;> rfl
  | cons b bs ih =>
    intro l1 l2 h
    cases l1 with
    | nil =>
      cases l2 with
      | nil => rfl
      | cons y ys => simp at h
    | cons x xs =>
      cases l2 with
      | nil => simp at h
      | cons y ys =>
        simp only [List.map_cons, List.cons.injEq, Prod.mk.injEq] at h
        obtain ⟨⟨h1, h2⟩, h3⟩ := h
        show (x.1, x.2.1, _) :: clothFrame p t bs xs = (y.1, y.2.1, _) :: clothFrame p t bs ys
        rw [h1, h2, ih xs ys h3]

/-- Re-running the cloth update at the same elapsed time leaves the buffer
unchanged: offsets are recomputed from the rest buffer, never accumulated. -/
theorem clothFrame_idem (p : AvatarParameters) (t : ℝ) :
    ∀ base live : List Vec3R,
      clothFrame p t base (clothFrame p t base live) = clothFrame p t base live := by
  intro base
  induction base with
  | nil =>
    intro live
    cases live <;> rfl
  | cons b bs ih =>
    intro live
    cases live with
    | nil => rfl
    | cons x xs =>
      show (x.1, x.2.1, _) :: clothFrame p t bs (clothFrame p t bs xs) = _
      rw [ih xs]
      rfl

/-- C9: the per-frame update is a deterministic function of elapsed time, the
parameters and the rest buffer: the hair rotation's written components (`x`
and `z`) do not depend on the prior rotation state, re-running the hair update
at the same time is the identity, the cloth update's output does not depend on
the live buffer's `z` components (only the rest buffer feeds the offsets), and
re-running the cloth update at the same elapsed time leaves the buffer
unchanged. -/
theorem frameUpdate_deterministic (p : AvatarParameters) (elapsed : ℝ)
    (rot1 rot2 : Vec3R) (base live1 live2 : List Vec3R) :
    (hairFrame p elapsed rot1).1 = (hairFrame p elapsed rot2).1 ∧
    (hairFrame p elapsed rot1).2.2 = (hairFrame p elapsed rot2).2.2 ∧
    hairFrame p elapsed (hairFrame p elapsed rot1) = hairFrame p elapsed rot1 ∧
    (live1.map (fun v => (v.1, v.2.1)) = live2.map (fun v => (v.1, v.2.1)) →
      clothFrame p elapsed base live1 = clothFrame p elapsed base live2) ∧
    clothFrame p elapsed base (clothFrame p elapsed base live1) =
      clothFrame p elapsed base live1 :=
  ⟨rfl, rfl, rfl, clothFrame_xy_only p elapsed base live1 live2,
    clothFrame_idem p elapsed base live1⟩

/-- Witness for C9: two live buffers differing only in `z` produce the same
updated cloth buffer. -/
theorem frameUpdate_deterministic_witness :
    clothFrame defaultParameters 0 [((0 : ℝ), 0, 0)] [((1 : ℝ), 2, 3)] =
      clothFrame defaultParameters 0 [((0 : ℝ), 0, 0)] [((1 : ℝ), 2, 5)] :=
  (frameUpdate_deterministic defaultParameters 0 (0, 0, 0) (0, 0, 0)
    [((0 : ℝ), 0, 0)] [((1 : ℝ), 2, 3)] [((1 : ℝ), 2, 5)]).2.2.2.1 rfl

end AvatarForge
